import Mathlib

/-!
Verification of the hand-gesture recognition program
(`gesture_recognition.py`, class `GestureRecognitionApp`).

The program derives a 5-element finger-state vector from hand landmarks
(`detect_fingers`), looks that vector up in a static gesture table
(`detect_gesture`), and runs a webcam loop (`run`).  We embed the pure
logic shallowly: landmark coordinates become rationals, the fallible
landmark indexing becomes `Option`, the Python dict literal (whose later
duplicate keys overwrite earlier ones) becomes an association list where
the last matching entry wins, and the control structure of `run` becomes
a small trace-producing model.
-/

set_option autoImplicit false

namespace GestureRecognition

/-- One MediaPipe hand landmark: normalized image coordinates. -/
structure Landmark where
  x : ℚ
  y : ℚ
deriving DecidableEq, Repr

/-- `tip_ids = [4, 8, 12, 16, 20]`: landmark indices of the five fingertips
(thumb, index, middle, ring, pinky). -/
def tip_ids : List ℕ := [4, 8, 12, 16, 20]

/-- One iteration of the `for id in range(1, 5)` loop of `detect_fingers`:
the finger with fingertip landmark `tip_ids[id]` is open (1) iff the tip's
`y` is strictly less than the `y` of the joint two landmarks earlier.
Landmark access is fallible (`Option`), mirroring Python's raising
out-of-range indexing. -/
def finger_y_state (hand_landmarks : List Landmark) (id : ℕ) : Option ℕ := do
  let tip ← hand_landmarks.get? (tip_ids.getD id 0)
  let pip ← hand_landmarks.get? (tip_ids.getD id 0 - 2)
  pure (if tip.y < pip.y then 1 else 0)

/-- `GestureRecognitionApp.detect_fingers`: from a hand's landmark list and a
handedness label, the list `[thumb, index, middle, ring, pinky]` of finger
states (1 open, 0 closed).  The thumb compares `x` of landmark 4 against
landmark 3, with the comparison direction depending on whether the label
equals `"Right"`; the four other fingers compare tip `y` against the middle
joint `y` (loop unrolled over ids 1..4).  `none` models the `IndexError`
raised on a missing landmark. -/
def detect_fingers (hand_landmarks : List Landmark) (handedness_label : String) :
    Option (List ℕ) := do
  let thumbTip ← hand_landmarks.get? (tip_ids.getD 0 0)
  let thumbJoint ← hand_landmarks.get? (tip_ids.getD 0 0 - 1)
  let thumb : ℕ :=
    if handedness_label = "Right" then
      if thumbTip.x < thumbJoint.x then 1 else 0
    else
      if thumbTip.x > thumbJoint.x then 1 else 0
  let f1 ← finger_y_state hand_landmarks 1
  let f2 ← finger_y_state hand_landmarks 2
  let f3 ← finger_y_state hand_landmarks 3
  let f4 ← finger_y_state hand_landmarks 4
  pure [thumb, f1, f2, f3, f4]

/-- The entries of the `self.gesture_map` dict literal, in source order,
duplicate key `(1,1,1,1,1)` included.  Keys are the finger-state tuples. -/
def gesture_map_entries : List (List ℕ × String) :=
  [([1, 1, 1, 1, 1], "Kepalan Tangan (Fist)"),
   ([1, 0, 0, 0, 0], "Mantap"),
   ([0, 1, 0, 0, 0], "Nama Saya"),
   ([0, 1, 1, 0, 0], "Ersaf Sirazi Arifin"),
   ([0, 1, 1, 1, 0], "Kelas"),
   ([0, 1, 1, 1, 1], "XI PPLG 2"),
   ([1, 1, 1, 1, 1], "Halo"),
   ([0, 1, 0, 0, 1], "Rock n Roll"),
   ([1, 1, 0, 0, 1], "XI PPLG 2"),
   ([0, 0, 1, 0, 0], "NGENTOT LO ANJING TAI BANGSAT")]

/-- Lookup in a Python dict built from an association list literal: a later
entry with the same key overwrites an earlier one, so the lookup returns the
value of the LAST entry whose key matches. -/
def dict_get (entries : List (List ℕ × String)) (k : List ℕ) : Option String :=
  ((entries.filter fun p => decide (p.1 = k)).getLast?).map Prod.snd

/-- `GestureRecognitionApp.detect_gesture`: `self.gesture_map.get(tuple(fingers),
"Unknown Gesture")`. -/
def detect_gesture (fingers : List ℕ) : String :=
  (dict_get gesture_map_entries fingers).getD "Unknown Gesture"

/-! ### State-passing model of the app object (for the frame property)

The Python methods receive `self`; the only attribute the claims concern is
`self.gesture_map`.  Translating the method bodies to explicit state
passing: neither `detect_fingers` nor `detect_gesture` contains an
assignment to `self.gesture_map`, so both return the state unchanged. -/

/-- The mutable state of a `GestureRecognitionApp` object relevant to the
gesture logic: its `gesture_map` attribute. -/
structure AppState where
  gesture_map : List (List ℕ × String)

/-- `__init__`: builds the gesture map from the dict literal. -/
def init_app : AppState := { gesture_map := gesture_map_entries }

/-- `detect_fingers` as a method: reads no attribute besides `self` itself
and writes none, so the state passes through unchanged. -/
def detect_fingers_app (app : AppState) (lm : List Landmark) (lbl : String) :
    Option (List ℕ) × AppState :=
  (detect_fingers lm lbl, app)

/-- `detect_gesture` as a method: reads `self.gesture_map`, writes nothing. -/
def detect_gesture_app (app : AppState) (fingers : List ℕ) :
    String × AppState :=
  ((dict_get app.gesture_map fingers).getD "Unknown Gesture", app)

/-- A call to one of the two gesture methods. -/
inductive AppCall where
  | fingersCall (lm : List Landmark) (lbl : String)
  | gestureCall (fingers : List ℕ)

/-- The state after one method call. -/
def step_call (app : AppState) (c : AppCall) : AppState :=
  match c with
  | .fingersCall lm lbl => (detect_fingers_app app lm lbl).2
  | .gestureCall fs => (detect_gesture_app app fs).2

/-- The state after a sequence of method calls. -/
def run_calls (app : AppState) (calls : List AppCall) : AppState :=
  calls.foldl step_call app

/-! ### Model of the `run` main loop control structure

Each iteration of the `while True` loop: `cap.read()` returns a success
flag; on failure the loop prints an error and breaks; otherwise the frame
is processed and displayed, and the loop breaks when `waitKey` reports the
`q` key.  Before the loop, `cap.isOpened()` is checked; on failure an
error is printed and `run` returns.  We model the observable behaviour as
the list of events produced. -/

/-- The environment's answer to one loop iteration: did `cap.read()`
succeed, and did `waitKey` report the quit key afterwards. -/
structure FrameInput where
  read_success : Bool
  quit_key : Bool
deriving DecidableEq, Repr

/-- Observable events of `run`. -/
inductive RunEvent where
  /-- `"Error: Tidak dapat mengakses webcam."` printed; `run` returns. -/
  | cameraError
  /-- `"Gagal membaca frame dari webcam."` printed; the loop breaks. -/
  | frameError
  /-- One frame processed and displayed. -/
  | frameShown
deriving DecidableEq, Repr

/-- The `while True` loop of `run`, over the stream of camera answers. -/
def frame_loop : List FrameInput → List RunEvent
  | [] => []
  | f :: rest =>
    if f.read_success = false then [RunEvent.frameError]
    else RunEvent.frameShown :: (if f.quit_key then [] else frame_loop rest)

/-- `GestureRecognitionApp.run`: check `cap.isOpened()`, then loop. -/
def run_model (camera_opened : Bool) (frames : List FrameInput) :
    List RunEvent :=
  if camera_opened = false then [RunEvent.cameraError]
  else frame_loop frames

/-! ### Concrete landmark lists used as test inputs -/

/-- 21 landmarks all at the origin: thumb tip x equals thumb joint x. -/
def lm_zero : List Landmark := List.replicate 21 ⟨0, 0⟩

/-- 21 landmarks with pairwise distinct coordinates: landmark `i` sits at
`(i, i)`. -/
def lm_test : List Landmark :=
  [⟨0, 0⟩, ⟨1, 1⟩, ⟨2, 2⟩, ⟨3, 3⟩, ⟨4, 4⟩, ⟨5, 5⟩, ⟨6, 6⟩,
   ⟨7, 7⟩, ⟨8, 8⟩, ⟨9, 9⟩, ⟨10, 10⟩, ⟨11, 11⟩, ⟨12, 12⟩, ⟨13, 13⟩,
   ⟨14, 14⟩, ⟨15, 15⟩, ⟨16, 16⟩, ⟨17, 17⟩, ⟨18, 18⟩, ⟨19, 19⟩, ⟨20, 20⟩]

/-! ### Characterization of `detect_fingers` on well-formed landmark lists -/

/-- The landmark at index `i` (meaningful when `i < lm.length`). -/
def landAt (lm : List Landmark) (i : ℕ) : Landmark := lm.getD i ⟨0, 0⟩

/-- The thumb state computed by `detect_fingers`, as a total function. -/
def thumb_state (lm : List Landmark) (lbl : String) : ℕ :=
  if lbl = "Right" then
    if (landAt lm 4).x < (landAt lm 3).x then 1 else 0
  else
    if (landAt lm 4).x > (landAt lm 3).x then 1 else 0

/-- The open/closed state of the finger with fingertip landmark `tip`,
as a total function. -/
def y_state (lm : List Landmark) (tip : ℕ) : ℕ :=
  if (landAt lm tip).y < (landAt lm (tip - 2)).y then 1 else 0

lemma tip_ids_getD_zero : tip_ids.getD 0 0 = 4 := rfl

lemma tip_ids_getD_one : tip_ids.getD 1 0 = 8 := rfl

lemma tip_ids_getD_two : tip_ids.getD 2 0 = 12 := rfl

lemma tip_ids_getD_three : tip_ids.getD 3 0 = 16 := rfl

lemma tip_ids_getD_four : tip_ids.getD 4 0 = 20 := rfl

lemma get?_eq_landAt {lm : List Landmark} {i : ℕ} (h : i < lm.length) :
    lm.get? i = some (landAt lm i) := by
  simp [landAt, List.getElem?_eq_getElem h]

lemma finger_y_state_eq {lm : List Landmark} (id : ℕ)
    (h : tip_ids.getD id 0 < lm.length) :
    finger_y_state lm id = some (y_state lm (tip_ids.getD id 0)) := by
  have h2 : tip_ids.getD id 0 - 2 < lm.length :=
    lt_of_le_of_lt (Nat.sub_le _ _) h
  simp only [finger_y_state, y_state, Option.bind_eq_bind, get?_eq_landAt h,
    get?_eq_landAt h2, Option.some_bind, Option.pure_def]

/-- On a landmark list with all 21 landmarks, `detect_fingers` succeeds and
returns exactly the thumb state followed by the four y-comparison states. -/
lemma detect_fingers_spec {lm : List Landmark} (lbl : String)
    (h : 21 ≤ lm.length) :
    detect_fingers lm lbl =
      some [thumb_state lm lbl, y_state lm 8, y_state lm 12,
            y_state lm 16, y_state lm 20] := by
  have h4 : (4 : ℕ) < lm.length := by omega
  have h3 : (3 : ℕ) < lm.length := by omega
  have h8 : tip_ids.getD 1 0 < lm.length := by rw [tip_ids_getD_one]; omega
  have h12 : tip_ids.getD 2 0 < lm.length := by rw [tip_ids_getD_two]; omega
  have h16 : tip_ids.getD 3 0 < lm.length := by rw [tip_ids_getD_three]; omega
  have h20 : tip_ids.getD 4 0 < lm.length := by rw [tip_ids_getD_four]; omega
  simp only [detect_fingers, tip_ids_getD_zero, show (4 : ℕ) - 1 = 3 from rfl,
    get?_eq_landAt h4, get?_eq_landAt h3,
    finger_y_state_eq 1 h8, finger_y_state_eq 2 h12,
    finger_y_state_eq 3 h16, finger_y_state_eq 4 h20,
    tip_ids_getD_one, tip_ids_getD_two, tip_ids_getD_three, tip_ids_getD_four,
    Option.bind_eq_bind, Option.some_bind]
  rfl

/-- On a landmark list missing some of the 21 landmarks, `detect_fingers`
fails (the model of the out-of-range `IndexError`). -/
lemma detect_fingers_eq_none {lm : List Landmark} (lbl : String)
    (h : lm.length < 21) :
    detect_fingers lm lbl = none := by
  have h20 : lm.get? 20 = none := by
    rw [List.get?_eq_getElem?]
    exact List.getElem?_eq_none (by omega)
  have hf4 : finger_y_state lm 4 = none := by
    simp only [finger_y_state, tip_ids_getD_four, Option.bind_eq_bind, h20,
      Option.none_bind]
  unfold detect_fingers
  cases hA : lm.get? (tip_ids.getD 0 0) <;> simp only [hA, Option.bind_eq_bind,
    Option.none_bind, Option.some_bind]
  cases hB : lm.get? (tip_ids.getD 0 0 - 1) <;> simp only [hB,
    Option.none_bind, Option.some_bind]
  cases hC : finger_y_state lm 1 <;> simp only [hC,
    Option.none_bind, Option.some_bind]
  cases hD : finger_y_state lm 2 <;> simp only [hD,
    Option.none_bind, Option.some_bind]
  cases hE : finger_y_state lm 3 <;> simp only [hE,
    Option.none_bind, Option.some_bind]
  simp only [hf4, Option.bind_eq_bind, Option.none_bind]

lemma y_state_iff (lm : List Landmark) (tip : ℕ) :
    (y_state lm tip = 1 ↔ (landAt lm tip).y < (landAt lm (tip - 2)).y) ∧
    (y_state lm tip = 0 ↔ ¬ (landAt lm tip).y < (landAt lm (tip - 2)).y) := by
  unfold y_state
  split <;> simp_all

lemma thumb_state_right (lm : List Landmark) :
    thumb_state lm "Right" =
      if (landAt lm 4).x < (landAt lm 3).x then 1 else 0 := by
  unfold thumb_state
  rw [if_pos rfl]

lemma thumb_state_not_right (lm : List Landmark) {lbl : String}
    (h : lbl ≠ "Right") :
    thumb_state lm lbl =
      if (landAt lm 4).x > (landAt lm 3).x then 1 else 0 := by
  unfold thumb_state
  rw [if_neg h]

lemma step_call_eq (app : AppState) (c : AppCall) : step_call app c = app := by
  cases c <;> rfl

lemma run_calls_eq (app : AppState) (calls : List AppCall) :
    run_calls app calls = app := by
  induction calls generalizing app with
  | nil => rfl
  | cons c cs ih =>
    rw [run_calls, List.foldl_cons, step_call_eq]
    exact ih app

/-! ### Claims -/

/-- C1: the key `(1,1,1,1,1)` is written twice in the `gesture_map` literal,
first with `"Kepalan Tangan (Fist)"` and last with `"Halo"`; `detect_gesture`
returns the label written last, `"Halo"`. -/
theorem duplicate_key_returns_last_label :
    ((gesture_map_entries.filter fun p => decide (p.1 = [1, 1, 1, 1, 1])).map
        Prod.snd = ["Kepalan Tangan (Fist)", "Halo"]) ∧
    detect_gesture [1, 1, 1, 1, 1] = "Halo" ∧
    detect_gesture [1, 1, 1, 1, 1] ≠ "Kepalan Tangan (Fist)" := by
  refine ⟨by decide, by decide, by decide⟩

/-- C3: `detect_gesture` on a vector that occurs as a key of the gesture
table returns a string associated with that key in the table; on a vector
that is not a key it returns the constant `"Unknown Gesture"`. -/
theorem detect_gesture_hit_or_unknown (fs : List ℕ) :
    (∀ s : String, (fs, s) ∈ gesture_map_entries →
      ∃ t : String, (fs, t) ∈ gesture_map_entries ∧ detect_gesture fs = t) ∧
    ((∀ p ∈ gesture_map_entries, p.1 ≠ fs) →
      detect_gesture fs = "Unknown Gesture") := by
  constructor
  · intro s hs
    have hmem : (fs, s) ∈ gesture_map_entries.filter fun p => decide (p.1 = fs) :=
      List.mem_filter.mpr ⟨hs, by simp⟩
    have hne : (gesture_map_entries.filter fun p => decide (p.1 = fs)) ≠ [] :=
      List.ne_nil_of_mem hmem
    obtain ⟨q, hq⟩ := Option.isSome_iff_exists.mp (List.getLast?_isSome.mpr hne)
    obtain ⟨k, v⟩ := q
    have hqf : (k, v) ∈ gesture_map_entries.filter fun p => decide (p.1 = fs) :=
      List.mem_of_getLast?_eq_some hq
    obtain ⟨hq1, hq2⟩ := List.mem_filter.mp hqf
    have hk : k = fs := by simpa using hq2
    subst hk
    exact ⟨v, hq1, by simp [detect_gesture, dict_get, hq]⟩
  · intro h
    have hnil : (gesture_map_entries.filter fun p => decide (p.1 = fs)) = [] := by
      refine List.filter_eq_nil_iff.mpr fun a ha => ?_
      simp [h a ha]
    simp [detect_gesture, dict_get, hnil]

/-- Witness for C3 at concrete inputs: `(0,1,1,1,0)` is a key (here of
`"Kelas"`) and is mapped to an associated string; `(0,0,0,0,1)` is not a key
and is mapped to `"Unknown Gesture"`. -/
theorem detect_gesture_hit_or_unknown_witness :
    (∃ t : String, (([0, 1, 1, 1, 0] : List ℕ), t) ∈ gesture_map_entries ∧
      detect_gesture [0, 1, 1, 1, 0] = t) ∧
    detect_gesture [0, 0, 0, 0, 1] = "Unknown Gesture" :=
  ⟨(detect_gesture_hit_or_unknown [0, 1, 1, 1, 0]).1 "Kelas" (by decide),
   (detect_gesture_hit_or_unknown [0, 0, 0, 0, 1]).2 (by decide)⟩

/-- C4: on a landmark list with all 21 landmarks, each non-thumb finger
(positions 1..4 of the result, with fingertip landmark `tip_ids[k]`) is
reported open (1) iff its tip `y` is strictly less than the `y` of the
joint at index `tip_ids[k] - 2`, and closed (0) otherwise; in particular
when every tip `y` is below its middle-joint `y`, all four are open. -/
theorem non_thumb_fingers_y_rule (lm : List Landmark) (lbl : String)
    (h : 21 ≤ lm.length) :
    ∃ fs, detect_fingers lm lbl = some fs ∧
      (∀ k : ℕ, 1 ≤ k → k ≤ 4 →
        (fs.get? k = some 1 ↔
          (landAt lm (tip_ids.getD k 0)).y <
            (landAt lm (tip_ids.getD k 0 - 2)).y) ∧
        (fs.get? k = some 0 ↔
          ¬ (landAt lm (tip_ids.getD k 0)).y <
            (landAt lm (tip_ids.getD k 0 - 2)).y)) ∧
      ((∀ k : ℕ, 1 ≤ k → k ≤ 4 →
          (landAt lm (tip_ids.getD k 0)).y <
            (landAt lm (tip_ids.getD k 0 - 2)).y) →
        fs.drop 1 = [1, 1, 1, 1]) := by
  refine ⟨_, detect_fingers_spec lbl h, ?_, ?_⟩
  · intro k h1 h4
    interval_cases k
    · rw [tip_ids_getD_one]
      simpa using y_state_iff lm 8
    · rw [tip_ids_getD_two]
      simpa using y_state_iff lm 12
    · rw [tip_ids_getD_three]
      simpa using y_state_iff lm 16
    · rw [tip_ids_getD_four]
      simpa using y_state_iff lm 20
  · intro hall
    have e1 := hall 1 (by omega) (by omega)
    have e2 := hall 2 (by omega) (by omega)
    have e3 := hall 3 (by omega) (by omega)
    have e4 := hall 4 (by omega) (by omega)
    rw [tip_ids_getD_one] at e1
    rw [tip_ids_getD_two] at e2
    rw [tip_ids_getD_three] at e3
    rw [tip_ids_getD_four] at e4
    have f1 := (y_state_iff lm 8).1.mpr e1
    have f2 := (y_state_iff lm 12).1.mpr e2
    have f3 := (y_state_iff lm 16).1.mpr e3
    have f4 := (y_state_iff lm 20).1.mpr e4
    simp [f1, f2, f3, f4]

/-- Witness for C4 at the concrete list `lm_test` (where every tip `y` is
above its middle joint, so no finger is open) and label `"Right"`. -/
theorem non_thumb_fingers_y_rule_witness :
    21 ≤ lm_test.length ∧
    ∃ fs, detect_fingers lm_test "Right" = some fs ∧
      (∀ k : ℕ, 1 ≤ k → k ≤ 4 →
        (fs.get? k = some 1 ↔
          (landAt lm_test (tip_ids.getD k 0)).y <
            (landAt lm_test (tip_ids.getD k 0 - 2)).y) ∧
        (fs.get? k = some 0 ↔
          ¬ (landAt lm_test (tip_ids.getD k 0)).y <
            (landAt lm_test (tip_ids.getD k 0 - 2)).y)) ∧
      ((∀ k : ℕ, 1 ≤ k → k ≤ 4 →
          (landAt lm_test (tip_ids.getD k 0)).y <
            (landAt lm_test (tip_ids.getD k 0 - 2)).y) →
        fs.drop 1 = [1, 1, 1, 1]) :=
  ⟨by decide, non_thumb_fingers_y_rule lm_test "Right" (by decide)⟩

/-- C5: on a landmark list with all 21 landmarks, the thumb state compares
the `x` of landmark 4 against the `x` of landmark 3: with label `"Right"`
the thumb is open iff tip `x` is strictly smaller, with label `"Left"` it is
open iff tip `x` is strictly larger. -/
theorem thumb_rule_direction (lm : List Landmark) (h : 21 ≤ lm.length) :
    ∃ fsR fsL, detect_fingers lm "Right" = some fsR ∧
      detect_fingers lm "Left" = some fsL ∧
      (fsR.get? 0 = some 1 ↔ (landAt lm 4).x < (landAt lm 3).x) ∧
      (fsR.get? 0 = some 0 ↔ ¬ (landAt lm 4).x < (landAt lm 3).x) ∧
      (fsL.get? 0 = some 1 ↔ (landAt lm 4).x > (landAt lm 3).x) ∧
      (fsL.get? 0 = some 0 ↔ ¬ (landAt lm 4).x > (landAt lm 3).x) := by
  refine ⟨_, _, detect_fingers_spec "Right" h, detect_fingers_spec "Left" h,
    ?_, ?_, ?_, ?_⟩ <;>
    rw [List.get?_cons_zero] <;>
    simp only [thumb_state_right,
      thumb_state_not_right lm (show ("Left" : String) ≠ "Right" by decide),
      Option.some_inj] <;>
    split <;> simp_all

/-- Witness for C5 at the concrete list `lm_test` (landmark 4 has larger
`x` than landmark 3, so `"Right"` reports thumb 0, `"Left"` reports 1). -/
theorem thumb_rule_direction_witness :
    21 ≤ lm_test.length ∧
    ∃ fsR fsL, detect_fingers lm_test "Right" = some fsR ∧
      detect_fingers lm_test "Left" = some fsL ∧
      (fsR.get? 0 = some 1 ↔ (landAt lm_test 4).x < (landAt lm_test 3).x) ∧
      (fsR.get? 0 = some 0 ↔ ¬ (landAt lm_test 4).x < (landAt lm_test 3).x) ∧
      (fsL.get? 0 = some 1 ↔ (landAt lm_test 4).x > (landAt lm_test 3).x) ∧
      (fsL.get? 0 = some 0 ↔ ¬ (landAt lm_test 4).x > (landAt lm_test 3).x) :=
  ⟨by decide, thumb_rule_direction lm_test (by decide)⟩

/-- C6: `detect_fingers` has no error handling: with fewer than 21
landmarks it fails (the out-of-range access, modelled by `none`), and with
all landmarks up to index 20 present it always succeeds. -/
theorem detect_fingers_no_error_handling (lm : List Landmark) (lbl : String) :
    (lm.length < 21 → detect_fingers lm lbl = none) ∧
    (21 ≤ lm.length → ∃ fs, detect_fingers lm lbl = some fs) :=
  ⟨fun h => detect_fingers_eq_none lbl h,
   fun h => ⟨_, detect_fingers_spec lbl h⟩⟩

/-- Witness for C6: a 20-landmark list fails; the 21-landmark `lm_test`
succeeds. -/
theorem detect_fingers_no_error_handling_witness :
    ((List.replicate 20 (⟨0, 0⟩ : Landmark)).length < 21 ∧
      detect_fingers (List.replicate 20 ⟨0, 0⟩) "Right" = none) ∧
    (21 ≤ lm_test.length ∧ ∃ fs, detect_fingers lm_test "Left" = some fs) :=
  ⟨⟨by decide,
    (detect_fingers_no_error_handling (List.replicate 20 ⟨0, 0⟩) "Right").1
      (by decide)⟩,
   ⟨by decide,
    (detect_fingers_no_error_handling lm_test "Left").2 (by decide)⟩⟩

/-- C2 counterexample: at the all-zero landmark list (thumb tip `x` equal
to thumb joint `x`) both labels report thumb state 0 — swapping the label
does not flip element 0 of the result. -/
theorem thumb_swap_no_flip_counterexample :
    detect_fingers lm_zero "Left" = some [0, 0, 0, 0, 0] ∧
    detect_fingers lm_zero "Right" = some [0, 0, 0, 0, 0] ∧
    detect_fingers lm_zero "Left" = detect_fingers lm_zero "Right" := by
  refine ⟨by decide, by decide, by decide⟩

/-- C2 amended: when the thumb tip `x` (landmark 4) differs from the thumb
joint `x` (landmark 3), swapping the handedness label between `"Left"` and
`"Right"` flips the reported thumb state (element 0). -/
theorem thumb_swap_flips_when_x_differs (lm : List Landmark)
    (h : 21 ≤ lm.length) (hx : (landAt lm 4).x ≠ (landAt lm 3).x) :
    ∃ fsL fsR, detect_fingers lm "Left" = some fsL ∧
      detect_fingers lm "Right" = some fsR ∧
      ((fsL.get? 0 = some 1 ∧ fsR.get? 0 = some 0) ∨
       (fsL.get? 0 = some 0 ∧ fsR.get? 0 = some 1)) := by
  refine ⟨_, _, detect_fingers_spec "Left" h, detect_fingers_spec "Right" h,
    ?_⟩
  have hL := thumb_state_not_right lm (show ("Left" : String) ≠ "Right" by decide)
  have hR := thumb_state_right lm
  rcases lt_or_gt_of_ne hx with hlt | hgt
  · right
    constructor <;> rw [List.get?_cons_zero, Option.some_inj]
    · rw [hL, if_neg (asymm hlt)]
    · rw [hR, if_pos hlt]
  · left
    constructor <;> rw [List.get?_cons_zero, Option.some_inj]
    · rw [hL, if_pos hgt]
    · rw [hR, if_neg (asymm hgt)]

/-- Witness for the amended C2 at `lm_test`, where landmark 4 has `x = 4`
and landmark 3 has `x = 3`. -/
theorem thumb_swap_flips_when_x_differs_witness :
    21 ≤ lm_test.length ∧
    (landAt lm_test 4).x ≠ (landAt lm_test 3).x ∧
    ∃ fsL fsR, detect_fingers lm_test "Left" = some fsL ∧
      detect_fingers lm_test "Right" = some fsR ∧
      ((fsL.get? 0 = some 1 ∧ fsR.get? 0 = some 0) ∨
       (fsL.get? 0 = some 0 ∧ fsR.get? 0 = some 1)) :=
  ⟨by decide, by decide,
   thumb_swap_flips_when_x_differs lm_test (by decide) (by decide)⟩

/-- C7: the gesture table is never mutated: each method returns the
`gesture_map` attribute unchanged, and after any sequence of calls to the
two methods the state still holds the map built at initialisation. -/
theorem gesture_map_never_mutated (calls : List AppCall) :
    (∀ (app : AppState) (lm : List Landmark) (lbl : String),
      (detect_fingers_app app lm lbl).2.gesture_map = app.gesture_map) ∧
    (∀ (app : AppState) (fs : List ℕ),
      (detect_gesture_app app fs).2.gesture_map = app.gesture_map) ∧
    (run_calls init_app calls).gesture_map = gesture_map_entries :=
  ⟨fun _ _ _ => rfl, fun _ _ => rfl, by rw [run_calls_eq]; rfl⟩

/-- C9: `detect_fingers` branches only on whether the label equals the
exact string `"Right"`: any other label behaves exactly like `"Left"`, so
its thumb is open iff tip `x` is strictly greater than joint `x`. -/
theorem non_right_label_uses_left_rule (lm : List Landmark) (lbl : String)
    (h : lbl ≠ "Right") :
    detect_fingers lm lbl = detect_fingers lm "Left" ∧
    (21 ≤ lm.length → ∃ fs, detect_fingers lm lbl = some fs ∧
      (fs.get? 0 = some 1 ↔ (landAt lm 4).x > (landAt lm 3).x)) := by
  constructor
  · simp [detect_fingers, h]
  · intro hlen
    refine ⟨_, detect_fingers_spec lbl hlen, ?_⟩
    rw [List.get?_cons_zero, Option.some_inj, thumb_state_not_right lm h]
    split <;> simp_all

/-- Witness for C9 at the lowercase label `"right"` (not equal to
`"Right"`) and the concrete list `lm_test`. -/
theorem non_right_label_uses_left_rule_witness :
    ("right" ≠ "Right") ∧
    detect_fingers lm_test "right" = detect_fingers lm_test "Left" ∧
    ∃ fs, detect_fingers lm_test "right" = some fs ∧
      (fs.get? 0 = some 1 ↔ (landAt lm_test 4).x > (landAt lm_test 3).x) :=
  ⟨by decide,
   (non_right_label_uses_left_rule lm_test "right" (by decide)).1,
   (non_right_label_uses_left_rule lm_test "right" (by decide)).2 (by decide)⟩

/-- C10: the handedness label influences only the thumb: for any two
labels, the last four elements of the `detect_fingers` result coincide
(also when both runs fail). -/
theorem handedness_affects_only_thumb (lm : List Landmark)
    (lblA lblB : String) :
    (detect_fingers lm lblA).map (List.drop 1) =
      (detect_fingers lm lblB).map (List.drop 1) := by
  rcases Nat.lt_or_ge lm.length 21 with h | h
  · rw [detect_fingers_eq_none lblA h, detect_fingers_eq_none lblB h]
  · rw [detect_fingers_spec lblA h, detect_fingers_spec lblB h]
    simp

/-- C8: `run` checks exactly two error conditions.  Camera not opened:
only the camera error event, the frame loop is never entered.  A frame
read fails after a run of successful non-quit frames: each of those frames
is shown, then the frame error event is emitted and the loop breaks —
nothing afterwards is processed or retried.  The camera-error event never
occurs once the loop runs. -/
theorem run_error_conditions (frames rest : List FrameInput) (f : FrameInput)
    (hok : ∀ p ∈ frames, p.read_success = true ∧ p.quit_key = false)
    (hf : f.read_success = false) :
    run_model false (frames ++ f :: rest) = [RunEvent.cameraError] ∧
    run_model true (frames ++ f :: rest) =
      frames.map (fun _ => RunEvent.frameShown) ++ [RunEvent.frameError] ∧
    RunEvent.cameraError ∉ run_model true (frames ++ f :: rest) := by
  have hloop : ∀ fr : List FrameInput,
      (∀ p ∈ fr, p.read_success = true ∧ p.quit_key = false) →
      frame_loop (fr ++ f :: rest) =
        fr.map (fun _ => RunEvent.frameShown) ++ [RunEvent.frameError] := by
    intro fr
    induction fr with
    | nil => intro _; simp [frame_loop, hf]
    | cons a as ih =>
      intro hall
      have ha := hall a (by simp)
      simp [frame_loop, ha.1, ha.2, ih fun p hp => hall p (by simp [hp])]
  refine ⟨rfl, ?_, ?_⟩
  · rw [run_model, if_neg (by simp)]
    exact hloop frames hok
  · rw [run_model, if_neg (by simp), hloop frames hok]
    simp

/-- Witness for C8: one good frame, then a failed read, then one more
(ignored) frame in the stream. -/
theorem run_error_conditions_witness :
    (∀ p ∈ [FrameInput.mk true false],
      p.read_success = true ∧ p.quit_key = false) ∧
    (FrameInput.mk false false).read_success = false ∧
    (run_model false
        ([FrameInput.mk true false] ++
          FrameInput.mk false false :: [FrameInput.mk true true]) =
        [RunEvent.cameraError] ∧
      run_model true
        ([FrameInput.mk true false] ++
          FrameInput.mk false false :: [FrameInput.mk true true]) =
        [FrameInput.mk true false].map (fun _ => RunEvent.frameShown) ++
          [RunEvent.frameError] ∧
      RunEvent.cameraError ∉
        run_model true
          ([FrameInput.mk true false] ++
            FrameInput.mk false false :: [FrameInput.mk true true])) :=
  ⟨by decide, by decide,
   run_error_conditions [FrameInput.mk true false] [FrameInput.mk true true]
     (FrameInput.mk false false) (by decide) (by decide)⟩

end GestureRecognition
